import Mathlib

/-!
# Verification of the Revel scraper core (`RevelScraper.py`)

Shallow embedding of the extraction / transformation / pagination engine of
`src/RevelScraper.py`.  Pure string manipulation (title normalisation,
list-title promotion, markdown rendering) is embedded as executable Lean
functions over `List Char` / `String`; the effectful parts (Selenium lookups,
clicks, file writes) are embedded by passing the outcomes of the external
calls explicitly (`Except`-valued lookup results, output modelled as the
ordered list of chunks written to the file).
-/

set_option autoImplicit false

/-! ## Python string primitives -/

/-- Whitespace as recognised by Python `str.strip()` (ASCII part):
space, tab, newline, carriage return, vertical tab, form feed. -/
def pySpace (c : Char) : Bool :=
  c == ' ' || c == '\t' || c == '\n' || c == '\r' ||
  c == Char.ofNat 11 || c == Char.ofNat 12

/-- Strip `pySpace` characters from both ends of a character list
(Python `str.strip()`). -/
def stripL (l : List Char) : List Char :=
  ((l.dropWhile pySpace).reverse.dropWhile pySpace).reverse

/-- Python `str.strip()` on `String`. -/
def pyStrip (s : String) : String := ⟨stripL s.data⟩

/-- `needle` is a prefix of `hay` (character lists). -/
def prefixOfL : List Char → List Char → Bool
  | [], _ => true
  | _ :: _, [] => false
  | a :: as, b :: bs => a == b && prefixOfL as bs

/-- `needle` occurs as a contiguous substring of `hay` (character lists);
Python `needle in hay`.  The empty needle always occurs. -/
def containsSubL (needle : List Char) : List Char → Bool
  | [] => needle.isEmpty
  | c :: t => prefixOfL needle (c :: t) || containsSubL needle t

/-- Python `needle in hay` on `String`s. -/
def containsSubstr (hay needle : String) : Bool :=
  containsSubL needle.data hay.data

/-! ## Title Normalizer (`clean_page_title`, lines 214-218)

`title.replace("Reading", "").strip()` followed by
`re.sub(r'(JAN|FEB|MAR|APR|MAY|JUN|JUL|AUG|SEP|OCT|NOV|DEC)\s+\d+', '', title).strip()`.
-/

/-- `str.replace("Reading", "")`: delete every non-overlapping occurrence of
the content marker, scanning left to right over the original string. -/
def removeMarkerAux : List Char → List Char
  | 'R' :: 'e' :: 'a' :: 'd' :: 'i' :: 'n' :: 'g' :: rest => removeMarkerAux rest
  | c :: cs => c :: removeMarkerAux cs
  | [] => []

/-- The twelve month abbreviations of the date-token regex. -/
def isMonth3 (a b c : Char) : Bool :=
  (a == 'J' && b == 'A' && c == 'N') ||
  (a == 'F' && b == 'E' && c == 'B') ||
  (a == 'M' && b == 'A' && c == 'R') ||
  (a == 'A' && b == 'P' && c == 'R') ||
  (a == 'M' && b == 'A' && c == 'Y') ||
  (a == 'J' && b == 'U' && c == 'N') ||
  (a == 'J' && b == 'U' && c == 'L') ||
  (a == 'A' && b == 'U' && c == 'G') ||
  (a == 'S' && b == 'E' && c == 'P') ||
  (a == 'O' && b == 'C' && c == 'T') ||
  (a == 'N' && b == 'O' && c == 'V') ||
  (a == 'D' && b == 'E' && c == 'C') ||
  false

/-- After a month abbreviation, greedily consume `\s+\d+`; return the
remainder on success (`\s` and `\d` are disjoint, so greedy max-munch is
exactly the regex semantics here). -/
def matchDateTail (l : List Char) : Option (List Char) :=
  let sp := l.takeWhile pySpace
  let r1 := l.dropWhile pySpace
  if sp.isEmpty then none
  else
    let dg := r1.takeWhile Char.isDigit
    let r2 := r1.dropWhile Char.isDigit
    if dg.isEmpty then none else some r2

theorem matchDateTail_length {l r : List Char} (h : matchDateTail l = some r) :
    r.length ≤ l.length := by
  unfold matchDateTail at h
  by_cases h1 : (l.takeWhile pySpace).isEmpty
  · simp [h1] at h
  · by_cases h2 : ((l.dropWhile pySpace).takeWhile Char.isDigit).isEmpty
    · simp [h1, h2] at h
    · simp [h1, h2] at h
      subst h
      calc ((l.dropWhile pySpace).dropWhile Char.isDigit).length
          ≤ (l.dropWhile pySpace).length :=
            (List.dropWhile_sublist Char.isDigit).length_le
        _ ≤ l.length := (List.dropWhile_sublist pySpace).length_le

/-- `re.sub(r'(JAN|...|DEC)\s+\d+', '', ·)` with explicit fuel: scan left to
right; at each position try to match a month abbreviation followed by
`\s+\d+`; on a match drop it and continue after the match, otherwise keep
the character.  Each step strictly shortens the list, so fuel equal to the
list length (supplied by `removeDatesAux`) never runs out. -/
def removeDatesFuel : Nat → List Char → List Char
  | 0, l => l
  | fuel + 1, a :: b :: c :: rest =>
    if isMonth3 a b c then
      match matchDateTail rest with
      | some r => removeDatesFuel fuel r
      | none => a :: removeDatesFuel fuel (b :: c :: rest)
    else a :: removeDatesFuel fuel (b :: c :: rest)
  | _ + 1, l => l

/-- The date-token removal of `clean_page_title` (line 218). -/
def removeDatesAux (l : List Char) : List Char :=
  removeDatesFuel l.length l

/-- `clean_page_title` (lines 214-218): remove the content marker, trim,
remove date tokens, trim. -/
def clean_page_title (s : String) : String :=
  ⟨stripL (removeDatesAux (stripL (removeMarkerAux s.data)))⟩

example : clean_page_title "JAN 5 Reading Intro" = "Intro" := by decide
example : clean_page_title "ReaReadingding" = "Reading" := by decide
example : clean_page_title "Reading" = "" := by decide

/-! ## Content Classifier (`extract_content`, lines 59-129)

The loop body of `extract_content` dispatches on the node's tag.  The three
recognised shapes are embedded as `PNode`; a list node carries the title that
`get_list_title` resolved for it (already trimmed by that function) and the
raw texts of its `li` children; a media node carries its tag name and the
values of its `src`, `data-src`, `href` attributes in that order (`none` for
a missing attribute, `some ""` for an empty one). -/

/-- A recognised node of the page-content region. -/
inductive PNode
  | para (text : String)
  | list (title : String) (items : List String)
  | media (tag : String) (attrs : List (Option String))
deriving DecidableEq

/-- `li` collection (lines 96-99): keep the trimmed texts of the list items
that are non-empty after trimming, each rendered as `- <item>`. -/
def mk_list_items (texts : List String) : List String :=
  ((texts.map pyStrip).filter (fun s => s ≠ "")).map (fun s => "- " ++ s)

/-- Duplicate-title lookback (lines 83-87): does any of the last 5 emitted
blocks contain the resolved list title as a substring (`page_data[-5:]`)? -/
def duplicate_check (title : String) (data : List String) : Bool :=
  (data.drop (data.length - 5)).any (fun line => containsSubstr line title)

/-- Retroactive promotion (lines 90-93): prefix `### ` onto the first block
of the whole emitted sequence whose text contains the title, then stop. -/
def promote_first (title : String) : List String → List String
  | [] => []
  | l :: ls =>
    if containsSubstr l title then ("### " ++ l) :: ls
    else l :: promote_first title ls

/-- The `ul`/`ol` branch of the classifier loop (lines 78-105): lookback
duplicate check, promotion of the earlier matching block, then — only when
the rendered item list is non-empty — a fresh `### <title>` header when no
duplicate was found, followed by the items. -/
def list_step (title : String) (items : List String) (data : List String) :
    List String :=
  let dup := duplicate_check title data
  let d := if dup then promote_first title data else data
  if items.isEmpty then d
  else (if dup then d else d ++ ["### " ++ title]) ++ items

/-- Attribute selection of the media branch (lines 108-111): the first
attribute value that is present, non-empty (Python truthiness) and not yet
in `processed_sources`.  A value that is non-empty but already processed
does not stop the scan — the next attribute is still examined. -/
def chooseSrc (attrs : List (Option String)) (processed : List String) :
    Option String :=
  match attrs with
  | [] => none
  | none :: rest => chooseSrc rest processed
  | some s :: rest =>
    if s ≠ "" ∧ s ∉ processed then some s else chooseSrc rest processed

/-- Python `str.capitalize` (ASCII part), used for the media kind label. -/
def capitalizeTag (t : String) : String :=
  match t.data with
  | [] => ""
  | c :: cs => ⟨c.toUpper :: cs.map Char.toLower⟩

/-- A single-quote character, used in the rendered image block. -/
def squot : String := String.singleton (Char.ofNat 39)

/-- Rendered media block (lines 112-116). -/
def mk_media_block (tag : String) (src : String) : String :=
  if tag == "img" then
    "<img src=" ++ squot ++ src ++ squot ++ " style=" ++ squot ++
      "max-width: 350px; display: block; margin: auto;" ++ squot ++ ">"
  else
    "\n- [" ++ capitalizeTag tag ++ ": " ++ src ++ "](" ++ src ++ ")\n"

/-- The classifier loop (lines 71-124), threading the state
`(page_data, processed_sources)`.  `processed_sources` is represented as the
list of source URLs in reverse emission order: the code adds a URL to the
set exactly when it appends the corresponding media block. -/
def extract_loop : List PNode → List String × List String →
    List String × List String
  | [], st => st
  | PNode.para t :: rest, (data, proc) =>
    extract_loop rest (data ++ [pyStrip t], proc)
  | PNode.list title items :: rest, (data, proc) =>
    extract_loop rest (list_step title (mk_list_items items) data, proc)
  | PNode.media tag attrs :: rest, (data, proc) =>
    match chooseSrc attrs proc with
    | some s => extract_loop rest (data ++ [mk_media_block tag s], s :: proc)
    | none => extract_loop rest (data, proc)

/-- `extract_content` (lines 59-129): the ordered block sequence produced
for one page, starting from empty `page_data` and `processed_sources`. -/
def extract_content (ns : List PNode) : List String :=
  (extract_loop ns ([], [])).1

example :
    extract_content
      [PNode.media "img" [some "a.png"],
       PNode.media "img" [none, some "a.png", some "b.png"]] =
      ["<img src=" ++ squot ++ "a.png" ++ squot ++
         " style=" ++ squot ++ "max-width: 350px; display: block; margin: auto;" ++ squot ++ ">",
       "<img src=" ++ squot ++ "b.png" ++ squot ++
         " style=" ++ squot ++ "max-width: 350px; display: block; margin: auto;" ++ squot ++ ">"] := by
  decide

example :
    extract_content
      [PNode.list "Key Terms" ["a"], PNode.list "Key Terms" ["b"]] =
      ["### ### Key Terms", "- a", "- b"] := by decide

/-! ## Resilient Locator (`wait_and_find_element`, lines 39-57)

The underlying Selenium primitive (spec §6: `findOne`) either yields an
element, raises `TimeoutException` (the element never appeared within the
quota — `NotFound`), or raises `StaleElementReferenceException` (transient
inconsistency).  One run of `wait_and_find_element` is determined by the
outcome of each attempt of its `for attempt in range(retries)` loop, so the
embedding takes the list of per-attempt outcomes (length = `retries`) and
returns the result together with the number of one-second `time.sleep(1)`
backoffs performed. -/

/-- Errors a Selenium call can raise in the embedding: `timeout` stands for
`TimeoutException` (the locator's `NotFound`), `stale` for
`StaleElementReferenceException`, `noSuchElement` for
`NoSuchElementException` — what a scope-restricted `parent.find_element`
raises when nothing matches (no implicit wait is configured, so it raises
at once, and it is not a subclass of `TimeoutException`) — and `other` for
any other exception. -/
inductive SelErr
  | timeout
  | stale
  | noSuchElement
  | other
deriving DecidableEq

deriving instance DecidableEq for Except

/-- Outcome of one attempt of the locator loop. -/
inductive Attempt
  | found (text : String)
  | stale
  | timeout
deriving DecidableEq

/-- `wait_and_find_element` (lines 39-57): on success return the element
(its text stands for the element here); on `TimeoutException` re-raise at
once; on `StaleElementReferenceException` sleep one time unit and retry,
except on the final attempt where it re-raises.  `Except.ok none` is the
implicit `None` returned when `retries = 0` and the loop body never runs.
The second component counts the `time.sleep(1)` calls. -/
def wait_and_find_element : List Attempt → Except SelErr (Option String) × Nat
  | [] => (Except.ok none, 0)
  | [Attempt.found t] => (Except.ok (some t), 0)
  | [Attempt.stale] => (Except.error SelErr.stale, 0)
  | [Attempt.timeout] => (Except.error SelErr.timeout, 0)
  | Attempt.found t :: _ :: _ => (Except.ok (some t), 0)
  | Attempt.stale :: r :: rest =>
    let pr := wait_and_find_element (r :: rest)
    (pr.1, pr.2 + 1)
  | Attempt.timeout :: _ :: _ => (Except.error SelErr.timeout, 0)

example : wait_and_find_element [Attempt.stale, Attempt.stale, Attempt.timeout, Attempt.found "x"] =
    (Except.error SelErr.timeout, 2) := by decide
example : wait_and_find_element [Attempt.stale, Attempt.stale, Attempt.stale] =
    (Except.error SelErr.stale, 2) := by decide

/-! ## Title Resolver (`get_list_title`, lines 131-152)

One run of `get_list_title` is determined by the outcomes of its three
external reads: the `paragraphNumeroUno` backward lookup, the descendant
count `len(prev_header.find_elements(By.XPATH, ".//*"))` of its result, and
the generic `h1..h6` backward lookup.  An element is represented by its
text. -/

/-- A located heading candidate: its text. -/
structure ElNode where
  text : String
deriving DecidableEq

/-- The `try` body of `get_list_title`: first lookup; if it yields a node
whose descendant count is not exactly 1, replace it by the generic-heading
lookup; return the trimmed text.  Failures propagate out of the body. -/
def get_list_title_body (lookupA : Except SelErr ElNode)
    (descCount : Except SelErr Nat) (lookupB : Except SelErr ElNode) :
    Except SelErr String :=
  match lookupA with
  | Except.error e => Except.error e
  | Except.ok h =>
    match descCount with
    | Except.error e => Except.error e
    | Except.ok n =>
      if n ≠ 1 then
        match lookupB with
        | Except.error e => Except.error e
        | Except.ok h2 => Except.ok (pyStrip h2.text)
      else Except.ok (pyStrip h.text)

/-- `get_list_title` (lines 131-152): the body wrapped in
`except (TimeoutException, StaleElementReferenceException): return default`,
with `default = "Listed Items"`.  `NoSuchElementException` and any other
exception are not caught by that clause and propagate. -/
def get_list_title (lookupA : Except SelErr ElNode)
    (descCount : Except SelErr Nat) (lookupB : Except SelErr ElNode) :
    Except SelErr String :=
  match get_list_title_body lookupA descCount lookupB with
  | Except.ok s => Except.ok s
  | Except.error SelErr.timeout => Except.ok "Listed Items"
  | Except.error SelErr.stale => Except.ok "Listed Items"
  | Except.error SelErr.noSuchElement => Except.error SelErr.noSuchElement
  | Except.error SelErr.other => Except.error SelErr.other

/-! ## Pagination Controller and Output Assembler (lines 154-229) -/

/-- `get_active_page_title` (lines 154-164): the trimmed text of the
`active-page` element, or the fixed fallback when the read fails for any
reason (`except Exception`). -/
def get_active_page_title : Except SelErr String → String
  | Except.ok t => pyStrip t
  | Except.error _ => "Unknown Module Title"

/-- `click_next_button` (lines 166-181): locate the next control, click it;
`True` only when both succeed; `TimeoutException` and every other exception
alike yield `False` (the function never raises). -/
def click_next_button (locateRes clickRes : Except SelErr Unit) : Bool :=
  match locateRes with
  | Except.error _ => false
  | Except.ok _ =>
    match clickRes with
    | Except.error _ => false
    | Except.ok _ => true

/-- One chunk written to `revel_content.md`: a `file.write` of a section
header `# Module <n>: <title>\n\n`, or of a plain string. -/
inductive OutChunk
  | header (n : Nat) (title : String)
  | body (text : String)
deriving DecidableEq

/-- The mutable run state: `self.previous_title` (initially `None`) and
`self.module_number` (initially 1). -/
structure ScrapeState where
  previous_title : Option String
  module_number : Nat
deriving DecidableEq

/-- `write_content_to_file` (lines 220-229): write a header exactly when the
title differs from `previous_title` (then advance the counter and remember
the title); always write the double-newline join of the blocks followed by a
blank line. -/
def write_content_to_file (st : ScrapeState) (title : String)
    (content : List String) : ScrapeState × List OutChunk :=
  if st.previous_title ≠ some title then
    (⟨some title, st.module_number + 1⟩,
     [OutChunk.header st.module_number title,
      OutChunk.body (String.intercalate "\n\n" content),
      OutChunk.body "\n\n"])
  else
    (st,
     [OutChunk.body (String.intercalate "\n\n" content),
      OutChunk.body "\n\n"])

/-- The external outcomes that determine one iteration of the `while True`
loop of `scrape_content` for the page active at that iteration. -/
structure PageEnv where
  titleLookup : Except SelErr String
  regionOk : Bool
  nodes : List PNode
  nextLocate : Except SelErr Unit
  nextClick : Except SelErr Unit
deriving DecidableEq

/-- The page's extraction result: `extract_content` wraps its whole body in
`try/except`, so when the `page-content` region lookup fails the page
yields the empty block list. -/
def extract_page (p : PageEnv) : List String :=
  if p.regionOk then extract_content p.nodes else []

/-- `scrape_content` (lines 183-212), as a function of the sequence of page
environments the run encounters (one per loop iteration; the list ends when
observation stops).  Per iteration: read the page identity; if it lacks the
`"Reading"` marker, advance or end without extracting; otherwise extract,
write when non-empty (under the cleaned title), then advance or end. -/
def scrape_content : List PageEnv → ScrapeState → List OutChunk
  | [], _ => []
  | p :: rest, st =>
    let page_title := get_active_page_title p.titleLookup
    if containsSubstr page_title "Reading" then
      let content := extract_page p
      let pr :=
        if content.isEmpty then (st, ([] : List OutChunk))
        else write_content_to_file st (clean_page_title page_title) content
      pr.2 ++ (if click_next_button p.nextLocate p.nextClick then
                 scrape_content rest pr.1 else [])
    else
      if click_next_button p.nextLocate p.nextClick then
        scrape_content rest st
      else []

example :
    scrape_content
      [⟨Except.ok "JAN 5 Reading Intro", true, [PNode.para "Hello"],
        Except.error SelErr.timeout, Except.ok ()⟩] ⟨none, 1⟩ =
      [OutChunk.header 1 "Intro", OutChunk.body "Hello", OutChunk.body "\n\n"] := by
  decide

/-! ## Helper lemmas -/

theorem dropWhile_idem {α : Type} (p : α → Bool) (l : List α) :
    (l.dropWhile p).dropWhile p = l.dropWhile p := by
  induction l with
  | nil => simp
  | cons a t ih =>
    by_cases hp : p a
    · simpa [List.dropWhile_cons_of_pos hp] using ih
    · simp [List.dropWhile_cons_of_neg hp]

theorem stripL_head_not (l : List Char) {c : Char} {s : List Char}
    (h : stripL l = c :: s) : pySpace c = false := by
  have hm : l.dropWhile pySpace
      = stripL l ++ ((l.dropWhile pySpace).reverse.takeWhile pySpace).reverse := by
    have : stripL l ++ ((l.dropWhile pySpace).reverse.takeWhile pySpace).reverse
        = l.dropWhile pySpace := by
      unfold stripL
      rw [← List.reverse_append, List.takeWhile_append_dropWhile, List.reverse_reverse]
    exact this.symm
  have h2 := List.head?_dropWhile_not pySpace l
  rw [hm, h] at h2
  simpa using h2

theorem stripL_idem (l : List Char) : stripL (stripL l) = stripL l := by
  have h1 : (stripL l).dropWhile pySpace = stripL l := by
    cases h : stripL l with
    | nil => simp
    | cons c s =>
      have hc := stripL_head_not l h
      simp [List.dropWhile_cons, hc]
  have h2 : (stripL l).reverse.dropWhile pySpace = (stripL l).reverse := by
    have hrev : (stripL l).reverse = (l.dropWhile pySpace).reverse.dropWhile pySpace := by
      unfold stripL; rw [List.reverse_reverse]
    rw [hrev, dropWhile_idem]
  show (((stripL l).dropWhile pySpace).reverse.dropWhile pySpace).reverse = stripL l
  rw [h1, h2, List.reverse_reverse]

/-! ## C3: idempotence of title normalization -/

/-- C3, counterexample: `clean_page_title` is NOT idempotent as claimed.
Removing the marker from `"ReaReadingding"` splices the surrounding
characters into a fresh `"Reading"`, so one application yields `"Reading"`
while a second application yields `""`. -/
theorem c3_normalize_not_idem_cex :
    clean_page_title (clean_page_title "ReaReadingding") ≠
      clean_page_title "ReaReadingding" := by decide

/-- C3, amended: normalization is idempotent on every input whose normalized
form is itself left unchanged by marker removal and by date-token removal
(in particular on every title whose single normalization produced a string
free of `"Reading"` and of `<MONTH> <digits>` tokens); unconditional
idempotence fails (see the counterexample). -/
theorem c3_normalize_conditional_idem (x : String)
    (h1 : removeMarkerAux (clean_page_title x).data = (clean_page_title x).data)
    (h2 : removeDatesAux (clean_page_title x).data = (clean_page_title x).data) :
    clean_page_title (clean_page_title x) = clean_page_title x := by
  have hstr : stripL (clean_page_title x).data = (clean_page_title x).data := by
    show stripL (stripL (removeDatesAux (stripL (removeMarkerAux x.data)))) = _
    rw [stripL_idem]
    rfl
  show (⟨stripL (removeDatesAux (stripL (removeMarkerAux (clean_page_title x).data)))⟩ : String)
      = clean_page_title x
  rw [h1, hstr, h2, hstr]

/-- C3 witness: the amended idempotence at the concrete title
`"JAN 5 Reading Intro"` (normalized form `"Intro"`). -/
theorem c3_normalize_conditional_idem_witness :
    clean_page_title (clean_page_title "JAN 5 Reading Intro") =
      clean_page_title "JAN 5 Reading Intro" :=
  c3_normalize_conditional_idem "JAN 5 Reading Intro" (by decide) (by decide)

/-! ## C1: section grouping in the output -/

/-- Is this output chunk a section header carrying title `t`? -/
def isHeaderFor (t : String) : OutChunk → Bool
  | OutChunk.header _ t2 => t2 == t
  | OutChunk.body _ => false

/-- C1, counterexample: the claim fails for non-adjacent pages.  A run whose
pages normalize to `A`, `B`, `A` writes TWO section headers titled `A`,
because `write_content_to_file` compares only against the immediately
previous title. -/
theorem c1_one_header_per_title_cex :
    ((scrape_content
        [⟨Except.ok "Reading A", true, [PNode.para "x"], Except.ok (), Except.ok ()⟩,
         ⟨Except.ok "Reading B", true, [PNode.para "y"], Except.ok (), Except.ok ()⟩,
         ⟨Except.ok "Reading A", true, [PNode.para "z"],
          Except.error SelErr.timeout, Except.ok ()⟩]
        ⟨none, 1⟩).countP (isHeaderFor "A")) = 2 := by decide

/-- C1, amended: a section header is written exactly when the page's
normalized title differs from the previously written title (`None` at run
start); the writer then remembers the title, so an immediately following
page with an equal title is appended with no second header.  (A title that
recurs after a different title gets a fresh header — see the
counterexample.) -/
theorem c1_header_iff_title_differs (st : ScrapeState) (t : String)
    (c c2 : List String) :
    ((write_content_to_file st t c).2.countP (isHeaderFor t)
        = if st.previous_title = some t then 0 else 1) ∧
    (write_content_to_file st t c).1.previous_title = some t ∧
    ((write_content_to_file (write_content_to_file st t c).1 t c2).2.countP
        (isHeaderFor t) = 0) := by
  unfold write_content_to_file
  by_cases h : st.previous_title = some t
  · simp [h, isHeaderFor]
  · simp [h, isHeaderFor]

/-! ## C2: the "promote to heading" marking is not idempotent -/

/-- C2, evaluation at the failing input: promoting a block that already
carries the `### ` marker doubles the marker; consequently a second list
resolving to the same title on one page turns the earlier `### Key Terms`
header into `### ### Key Terms`. -/
theorem c2_promotion_doubles_marker :
    promote_first "Key Terms" ["### Key Terms", "- a"] =
        ["### ### Key Terms", "- a"] ∧
    list_step "Key Terms" ["- b"] ["### Key Terms", "- a"] =
        ["### ### Key Terms", "- a", "- b"] ∧
    extract_content [PNode.list "Key Terms" ["a"], PNode.list "Key Terms" ["b"]] =
        ["### ### Key Terms", "- a", "- b"] := by decide

/-! ## C4: media-source deduplication -/

theorem extract_loop_append (xs ys : List PNode) (st : List String × List String) :
    extract_loop (xs ++ ys) st = extract_loop ys (extract_loop xs st) := by
  induction xs generalizing st with
  | nil => simp [extract_loop]
  | cons n rest ih =>
    obtain ⟨data, proc⟩ := st
    cases n with
    | para t => simp [extract_loop, ih]
    | list ti it => simp [extract_loop, ih]
    | media tag attrs =>
      cases hc : chooseSrc attrs proc <;> simp [extract_loop, hc, ih]

theorem chooseSrc_spec {attrs : List (Option String)} {proc : List String}
    {s : String} (h : chooseSrc attrs proc = some s) : s ∉ proc ∧ s ≠ "" := by
  induction attrs with
  | nil => simp [chooseSrc] at h
  | cons a rest ih =>
    cases a with
    | none => exact ih (by simpa [chooseSrc] using h)
    | some v =>
      by_cases hv : v ≠ "" ∧ v ∉ proc
      · simp only [chooseSrc, if_pos hv] at h
        cases h
        exact ⟨hv.2, hv.1⟩
      · simp only [chooseSrc, if_neg hv] at h
        exact ih h

theorem extract_loop_proc_nodup (ns : List PNode)
    (st : List String × List String) (h : st.2.Nodup) :
    (extract_loop ns st).2.Nodup := by
  induction ns generalizing st with
  | nil => simpa [extract_loop] using h
  | cons n rest ih =>
    obtain ⟨data, proc⟩ := st
    simp only at h
    cases n with
    | para t => exact ih (data ++ [pyStrip t], proc) h
    | list ti it => exact ih (list_step ti (mk_list_items it) data, proc) h
    | media tag attrs =>
      cases hc : chooseSrc attrs proc with
      | none => simpa [extract_loop, hc] using ih (data, proc) h
      | some s =>
        have hs := (chooseSrc_spec hc).1
        simp only [extract_loop, hc]
        exact ih _ (by simp [List.nodup_cons, hs, h])

theorem chooseSrc_skip {attrs : List (Option String)} {proc : List String}
    (h : ∀ v ∈ attrs, v = none ∨ v = some "" ∨ ∃ s, v = some s ∧ s ∈ proc) :
    chooseSrc attrs proc = none := by
  induction attrs with
  | nil => rfl
  | cons a rest ih =>
    have hrest : chooseSrc rest proc = none :=
      ih fun v hv => h v (List.mem_cons_of_mem _ hv)
    cases a with
    | none => simpa [chooseSrc] using hrest
    | some v =>
      rcases h (some v) (List.mem_cons_self _ _) with h0 | h1 | ⟨s, hs, hmem⟩
      · cases h0
      · have hv : v = "" := by injection h1
        subst hv
        simpa [chooseSrc] using hrest
      · have hv : v = s := by injection hs
        subst hv
        have : ¬ (v ≠ "" ∧ v ∉ proc) := fun hcon => hcon.2 hmem
        simpa [chooseSrc, if_neg this] using hrest

/-- C4: within one extraction pass, the emitted media source URLs
(= `processed_sources`, the second state component, one entry per emitted
media block) are pairwise distinct, and a later media node all of whose
present, non-empty attribute values are already-emitted URLs contributes
nothing — the first occurrence of a URL is the only one emitted. -/
theorem c4_media_source_dedup (ns : List PNode) :
    (extract_loop ns ([], [])).2.Nodup ∧
    ∀ tag attrs,
      (∀ v ∈ attrs, v = none ∨ v = some "" ∨
          ∃ s, v = some s ∧ s ∈ (extract_loop ns ([], [])).2) →
      extract_loop (ns ++ [PNode.media tag attrs]) ([], []) =
        extract_loop ns ([], []) := by
  constructor
  · exact extract_loop_proc_nodup ns ([], []) (by simp)
  · intro tag attrs h
    rw [extract_loop_append]
    rcases hst : extract_loop ns ([], []) with ⟨data, proc⟩
    rw [hst] at h
    have hnone : chooseSrc attrs proc = none := chooseSrc_skip h
    simp [extract_loop, hnone]

/-- C4 witness: an `img` with `src="a.png"` followed by a `video` whose
`src` repeats `a.png` (and whose `data-src` is empty) emits exactly the one
block for `a.png`. -/
theorem c4_media_source_dedup_witness :
    (extract_loop [PNode.media "img" [some "a.png"]] ([], [])).2.Nodup ∧
    extract_loop ([PNode.media "img" [some "a.png"]] ++
        [PNode.media "video" [some "a.png", some ""]]) ([], []) =
      extract_loop [PNode.media "img" [some "a.png"]] ([], []) := by
  refine ⟨(c4_media_source_dedup [PNode.media "img" [some "a.png"]]).1,
    (c4_media_source_dedup [PNode.media "img" [some "a.png"]]).2 "video"
      [some "a.png", some ""] ?_⟩
  intro v hv
  rcases List.mem_cons.mp hv with rfl | hv2
  · exact Or.inr (Or.inr ⟨"a.png", rfl, by decide⟩)
  · rcases List.mem_cons.mp hv2 with rfl | hv3
    · exact Or.inr (Or.inl rfl)
    · simp at hv3

/-! ## C10: which block the promotion rewrites -/

theorem promote_first_eq (t : String) (data : List String) :
    promote_first t data =
      match data.findIdx? (fun l => containsSubstr l t) with
      | some j => data.set j ("### " ++ data.getD j "")
      | none => data := by
  induction data with
  | nil => rfl
  | cons l ls ih =>
    by_cases hl : containsSubstr l t
    · simp [promote_first, hl, List.findIdx?_cons]
    · simp only [promote_first, hl, Bool.false_eq_true, if_false,
        List.findIdx?_cons, List.findIdx?_succ]
      rw [ih]
      cases h : ls.findIdx? (fun l => containsSubstr l t) <;> simp [h]

/-- C10: when the last-5 lookback fires, the block that receives the `### `
prefix is the FIRST matching block of the whole emitted sequence
(`findIdx?` from the start), not necessarily one of the 5 trailing blocks
that triggered the detection. -/
theorem c10_promotion_targets_global_first (t : String)
    (items data : List String) (h : duplicate_check t data = true) :
    ∃ j, data.findIdx? (fun l => containsSubstr l t) = some j ∧
      list_step t items data =
        data.set j ("### " ++ data.getD j "") ++
          (if items.isEmpty then [] else items) := by
  have hex : ∃ l ∈ data, containsSubstr l t := by
    unfold duplicate_check at h
    rcases List.any_eq_true.mp h with ⟨l, hl, hc⟩
    exact ⟨l, List.mem_of_mem_drop hl, hc⟩
  have hsome : (data.findIdx? (fun l => containsSubstr l t)).isSome := by
    rw [List.findIdx?_isSome]
    exact List.any_eq_true.mpr hex
  cases ho : data.findIdx? (fun l => containsSubstr l t) with
  | none => rw [ho] at hsome; simp at hsome
  | some j =>
    refine ⟨j, rfl, ?_⟩
    unfold list_step
    rw [promote_first_eq, ho]
    by_cases hi : items.isEmpty <;> simp [h, hi]

/-- C10 witness: with six emitted blocks whose first and last both contain
the title, the lookback fires on the last block but the promoted block is
index 0 — which is NOT among the trailing five (indices 1-5). -/
theorem c10_promotion_targets_global_first_witness :
    duplicate_check "Key Terms"
        ["Key Terms intro", "a", "b", "c", "d", "also Key Terms"] = true ∧
    (["Key Terms intro", "a", "b", "c", "d", "also Key Terms"].findIdx?
        (fun l => containsSubstr l "Key Terms")) = some 0 ∧
    ∃ j, (["Key Terms intro", "a", "b", "c", "d", "also Key Terms"].findIdx?
          (fun l => containsSubstr l "Key Terms")) = some j ∧
      list_step "Key Terms" ["- i"]
          ["Key Terms intro", "a", "b", "c", "d", "also Key Terms"] =
        ["Key Terms intro", "a", "b", "c", "d", "also Key Terms"].set j
            ("### " ++ ["Key Terms intro", "a", "b", "c", "d",
              "also Key Terms"].getD j "") ++
          (if (["- i"] : List String).isEmpty then [] else ["- i"]) :=
  ⟨by decide, by decide,
   c10_promotion_targets_global_first "Key Terms" ["- i"]
     ["Key Terms intro", "a", "b", "c", "d", "also Key Terms"] (by decide)⟩

/-! ## C5: list-title resolution fails when no candidate heading exists -/

/-- C5 (evaluation at the failing input): both backward lookups of
`get_list_title` pass `parent=element`, so `wait_and_find_element` takes
its `parent.find_element(by, value)` branch (the `timeout=5` argument is
dead there).  When no candidate heading exists, that call raises
`NoSuchElementException`, which neither `wait_and_find_element` (it handles
only stale and timeout) nor `get_list_title`'s
`except (TimeoutException, StaleElementReferenceException)` catches: the
resolution propagates the failure instead of returning the default, so the
enclosing per-element handler of `extract_content` skips the whole list
node.  The timeout and stale-failure cases do return the default exactly
as the claim says. -/
theorem c5_missing_heading_lookup_propagates :
    get_list_title (Except.error SelErr.noSuchElement) (Except.ok 1)
        (Except.ok ⟨"X"⟩) = Except.error SelErr.noSuchElement ∧
    get_list_title (Except.error SelErr.noSuchElement) (Except.ok 1)
        (Except.ok ⟨"X"⟩) ≠ Except.ok "Listed Items" ∧
    get_list_title (Except.ok ⟨"H"⟩) (Except.ok 2)
        (Except.error SelErr.noSuchElement) = Except.error SelErr.noSuchElement ∧
    get_list_title (Except.error SelErr.timeout) (Except.ok 1)
        (Except.ok ⟨"X"⟩) = Except.ok "Listed Items" ∧
    get_list_title (Except.error SelErr.stale) (Except.ok 1)
        (Except.ok ⟨"X"⟩) = Except.ok "Listed Items" := by decide

/-! ## C6: non-content pages are skipped without extraction or output -/

/-- C6: when the active page's identity lacks the `"Reading"` marker, that
iteration writes nothing, changes no state, and never runs the classifier:
the run either continues with the next page (advance succeeded) or ends. -/
theorem c6_non_reading_page_skipped (p : PageEnv) (rest : List PageEnv)
    (st : ScrapeState)
    (h : containsSubstr (get_active_page_title p.titleLookup) "Reading" = false) :
    scrape_content (p :: rest) st =
      if click_next_button p.nextLocate p.nextClick then
        scrape_content rest st
      else [] := by
  simp [scrape_content, h]

/-- C6 witness: a page titled `"Overview"` contributes nothing and the run
continues on the remaining pages. -/
theorem c6_non_reading_page_skipped_witness :
    scrape_content
        [⟨Except.ok "Overview", true, [PNode.para "t"], Except.ok (), Except.ok ()⟩,
         ⟨Except.ok "Reading A", true, [PNode.para "x"],
          Except.error SelErr.timeout, Except.ok ()⟩] ⟨none, 1⟩ =
      if click_next_button (Except.ok ()) (Except.ok ()) then
        scrape_content
          [⟨Except.ok "Reading A", true, [PNode.para "x"],
            Except.error SelErr.timeout, Except.ok ()⟩] ⟨none, 1⟩
      else [] :=
  c6_non_reading_page_skipped _ _ _ (by decide)

/-! ## C7: the locator retries stale references only -/

/-- C7: after any number of stale attempts, a presence timeout makes the
locator fail at once with `NotFound` (`TimeoutException`) — the remaining
attempt budget (`post`) is never consumed and no further backoff happens —
while a run whose every attempt is stale performs a one-time-unit backoff
after each non-final attempt (`pre.length` sleeps for `pre.length + 1`
attempts) and propagates the stale failure on the final attempt. -/
theorem c7_retry_policy (pre post : List Attempt)
    (hpre : ∀ a ∈ pre, a = Attempt.stale) :
    wait_and_find_element (pre ++ Attempt.timeout :: post) =
        (Except.error SelErr.timeout, pre.length) ∧
    wait_and_find_element (pre ++ [Attempt.stale]) =
        (Except.error SelErr.stale, pre.length) := by
  induction pre with
  | nil =>
    constructor
    · cases post <;> rfl
    · rfl
  | cons a pre ih =>
    have ha : a = Attempt.stale := hpre a (List.mem_cons_self _ _)
    subst ha
    have ih2 := ih (fun x hx => hpre x (List.mem_cons_of_mem _ hx))
    constructor
    · cases hcons : pre ++ Attempt.timeout :: post with
      | nil => simp at hcons
      | cons r rest =>
        rw [List.cons_append, hcons]
        show ((wait_and_find_element (r :: rest)).1,
          (wait_and_find_element (r :: rest)).2 + 1) = _
        rw [← hcons, ih2.1]
        simp
    · cases hcons : pre ++ [Attempt.stale] with
      | nil => simp at hcons
      | cons r rest =>
        rw [List.cons_append, hcons]
        show ((wait_and_find_element (r :: rest)).1,
          (wait_and_find_element (r :: rest)).2 + 1) = _
        rw [← hcons, ih2.2]
        simp

/-- C7 witness: two stale attempts then a timeout fail as `NotFound` after
2 backoffs with budget left unconsumed; three stale attempts fail as stale
after 2 backoffs. -/
theorem c7_retry_policy_witness :
    wait_and_find_element
        [Attempt.stale, Attempt.stale, Attempt.timeout, Attempt.found "x"] =
        (Except.error SelErr.timeout, 2) ∧
    wait_and_find_element [Attempt.stale, Attempt.stale, Attempt.stale] =
        (Except.error SelErr.stale, 2) := by
  have h := c7_retry_policy [Attempt.stale, Attempt.stale] [Attempt.found "x"]
    (by decide)
  exact ⟨h.1, h.2⟩

/-! ## C8: any advance failure is reported as no-advance -/

/-- C8: `click_next_button` returns `True` only when both locating and
clicking succeed — a timeout, a stale reference or any other exception in
either step yields `False` rather than propagating — and a `False` advance
makes the pagination loop stop after the current page, exactly as if the
current page were the last one. -/
theorem c8_advance_failure_is_no_advance (l c : Except SelErr Unit)
    (p : PageEnv) (rest : List PageEnv) (st : ScrapeState)
    (h : click_next_button p.nextLocate p.nextClick = false) :
    (click_next_button l c = true ↔ l = Except.ok () ∧ c = Except.ok ()) ∧
    scrape_content (p :: rest) st = scrape_content [p] st := by
  constructor
  · cases l with
    | error e => simp [click_next_button]
    | ok u =>
      cases u
      cases c with
      | error e => simp [click_next_button]
      | ok u2 => cases u2; simp [click_next_button]
  · by_cases hr : containsSubstr (get_active_page_title p.titleLookup) "Reading"
    · simp [scrape_content, hr, h]
    · simp [scrape_content, hr, h]

/-- C8 witness: a failing click (an exception other than a timeout) reports
no-advance, and the loop ends normally after the current page. -/
theorem c8_advance_failure_is_no_advance_witness :
    (click_next_button (Except.ok ()) (Except.error SelErr.other) = true ↔
      (Except.ok () : Except SelErr Unit) = Except.ok () ∧
      (Except.error SelErr.other : Except SelErr Unit) = Except.ok ()) ∧
    scrape_content
        [⟨Except.ok "Reading A", true, [PNode.para "x"], Except.ok (),
          Except.error SelErr.other⟩,
         ⟨Except.ok "Reading B", true, [PNode.para "y"], Except.ok (), Except.ok ()⟩]
        ⟨none, 1⟩ =
      scrape_content
        [⟨Except.ok "Reading A", true, [PNode.para "x"], Except.ok (),
          Except.error SelErr.other⟩] ⟨none, 1⟩ :=
  c8_advance_failure_is_no_advance (Except.ok ()) (Except.error SelErr.other)
    _ _ _ (by decide)

/-! ## C9: identity-read failure falls back and the page is skipped -/

/-- C9: a failed identity read yields the fixed fallback
`"Unknown Module Title"`; the fallback lacks the `"Reading"` marker, so the
iteration extracts nothing, writes nothing, and advances or ends — the run
is never aborted by an identity-read failure. -/
theorem c9_identity_read_fallback (e : SelErr) (p : PageEnv)
    (rest : List PageEnv) (st : ScrapeState)
    (h : p.titleLookup = Except.error e) :
    get_active_page_title p.titleLookup = "Unknown Module Title" ∧
    containsSubstr "Unknown Module Title" "Reading" = false ∧
    scrape_content (p :: rest) st =
      if click_next_button p.nextLocate p.nextClick then
        scrape_content rest st
      else [] := by
  have h1 : get_active_page_title p.titleLookup = "Unknown Module Title" := by
    rw [h]
    rfl
  have h2 : containsSubstr (get_active_page_title p.titleLookup) "Reading" = false := by
    rw [h1]
    decide
  exact ⟨h1, by decide, by simp [scrape_content, h2]⟩

/-- C9 witness: a stale identity read skips the page and continues. -/
theorem c9_identity_read_fallback_witness :
    get_active_page_title
        ((⟨Except.error SelErr.stale, true, [PNode.para "x"], Except.ok (),
          Except.ok ()⟩ : PageEnv)).titleLookup = "Unknown Module Title" ∧
    containsSubstr "Unknown Module Title" "Reading" = false ∧
    scrape_content
        [⟨Except.error SelErr.stale, true, [PNode.para "x"], Except.ok (),
          Except.ok ()⟩,
         ⟨Except.ok "Reading A", true, [PNode.para "y"],
          Except.error SelErr.timeout, Except.ok ()⟩] ⟨none, 1⟩ =
      if click_next_button (Except.ok ()) (Except.ok ()) then
        scrape_content
          [⟨Except.ok "Reading A", true, [PNode.para "y"],
            Except.error SelErr.timeout, Except.ok ()⟩] ⟨none, 1⟩
      else [] :=
  c9_identity_read_fallback SelErr.stale _ _ _ rfl
